import Mathlib

/-!
Verification of the Adasum allreduce components of onnxruntime.

This file gives a shallow embedding of the Adasum distributed
gradient-reduction components:

* the numeric Adasum pairwise combination (modelled from the spec, since
  the reducer arithmetic lives outside the provided sources),
* the `AdasumAllReduce::ComputeInternal` CUDA kernel orchestration
  (translated from
  `orttraining/training_ops/cuda/collective/adasum_kernels.cc`),
* the validation / error model of a reduction call (modelled from the spec).

Numeric values are modelled as rationals, so every combination identity is
exact; the floating-point test expectations are checked up to an explicit
tolerance.
-/

namespace OnnxAdasum

/-! ## Numeric model: the Adasum pairwise combination -/

/-- Dot product of two numeric vectors (truncating at the shorter length,
as the fused buffers always have matching per-tensor element counts). -/
def dotProduct (a b : List ℚ) : ℚ := (List.zipWith (· * ·) a b).sum

/-- Squared Euclidean norm of a vector. -/
def normSq (a : List ℚ) : ℚ := dotProduct a a

/-- Element-wise sum of two vectors. -/
def vecAdd (a b : List ℚ) : List ℚ := List.zipWith (· + ·) a b

/-- The weighted Adasum combination used when both squared norms are
non-zero: weight `a` by `1 − (a·b)/(2‖a‖²)` and `b` by
`1 − (a·b)/(2‖b‖²)`, then sum the weighted vectors. -/
def adasumWeighted (a b : List ℚ) : List ℚ :=
  vecAdd (a.map fun x => (1 - dotProduct a b / (2 * normSq a)) * x)
         (b.map fun y => (1 - dotProduct a b / (2 * normSq b)) * y)

/-- Modelled from the spec: the Adasum pairwise combination performed by
the reducer (`DispatchFusedAllreduce` is not among the provided sources;
this follows §4.2 step 3 of the spec): compute the dot product and the
squared norms; if both norms are non-zero use the projection-corrected
weighted sum, otherwise fall back to the plain element-wise sum. -/
def adasumCombine (a b : List ℚ) : List ℚ :=
  if normSq a ≠ 0 ∧ normSq b ≠ 0 then adasumWeighted a b else vecAdd a b

/-- Modelled from the spec: for a fused request the combination weights are
computed independently per tensor, never mixed across tensor boundaries. -/
def fusedAdasumCombine (as bs : List (List ℚ)) : List (List ℚ) :=
  List.zipWith adasumCombine as bs

/-- Approximate equality of vectors: equal lengths and `|x - y| ≤ tol` for
every aligned pair of elements. -/
def approxList (xs ys : List ℚ) (tol : ℚ) : Prop :=
  xs.length = ys.length ∧ ∀ p ∈ List.zip xs ys, |p.1 - p.2| ≤ tol

instance (xs ys : List ℚ) (tol : ℚ) : Decidable (approxList xs ys tol) := by
  unfold approxList; infer_instance

/-- The flat plain-summation allreduce for world size 2.  Modelled from the
spec: "For all valid inputs with a world size of 2 and plain summation
semantics, the result equals element-wise `a + b`" (the flat collective
itself is not among the provided sources). -/
def flatSumAllreduce (a b : List ℚ) : List ℚ := vecAdd a b

/-! ## Enumerations of the kernel (from `adasum_kernels.cc` and its callers) -/

/-- The `reduce_algo` attribute values (`training::AdasumReductionType`). -/
inductive AdasumReductionType
  | None
  | CpuReduction
  | GpuHierarchical
  deriving DecidableEq

/-- Worker-group identifiers (`training::WorkerGroupType`). -/
inductive WorkerGroupType
  | GlobalParallel
  | DataParallel
  | NodeLocalDataParallel
  | HorizontalParallel
  deriving DecidableEq

/-- Element kinds a tensor may carry. -/
inductive DataType
  | Float32
  | Float16
  | Float64
  | Int32
  | Int64
  deriving DecidableEq

/-- Error taxonomy of a reduction call (spec §7). -/
inductive ReduceError
  | CommunicationFailure
  | ElementCountMismatch
  | TensorCountMismatch
  | AllocationError
  | DeviceCopyError
  | UnsupportedTypeError
  deriving DecidableEq

/-! ## The `AdasumAllReduce::ComputeInternal` orchestration

Translated from
`orttraining/training_ops/cuda/collective/adasum_kernels.cc`.  A tensor is
its byte size, element count, element kind and raw bytes; the scratch
buffer is a byte list; the point-to-point machinery behind
`DispatchFusedAllreduce` and the CUDA copies are abstract fallible
parameters, so the orchestration's control flow is exactly the source's. -/

/-- An input tensor as the kernel sees it. -/
structure KernelTensor where
  sizeInBytes : Nat
  elemCount : Nat
  dataType : DataType
  bytes : List Nat
  deriving DecidableEq

/-- The offsets loop of `ComputeInternal` (lines 25–35): a running variable
`size_in_bytes` starts at 0, each iteration first pushes its current value
as the tensor's offset and only then overwrites it with the tensor's own
byte size.  (Hence the offset recorded for tensor `i` is the byte size of
tensor `i-1`, not a cumulative sum.) -/
def offsetsLoop : List Nat → Nat → List Nat
  | [], _ => []
  | sz :: rest, sizeInBytes => sizeInBytes :: offsetsLoop rest sz

/-- The offset table recorded by `ComputeInternal` for given tensor byte
sizes. -/
def tensorOffsets (sizes : List Nat) : List Nat := offsetsLoop sizes 0

/-- The offset table the spec prescribes: the offset of tensor `i` is the
cumulative sum of the byte sizes of tensors `0..i-1`. -/
def cumOffsets : List Nat → List Nat
  | [] => []
  | sz :: rest => 0 :: (cumOffsets rest).map (· + sz)

/-- Pairwise disjointness of `(offset, byteLength)` regions, in order. -/
def regionsDisjoint (regions : List (Nat × Nat)) : Prop :=
  List.Pairwise (fun r s => r.1 + r.2 ≤ s.1 ∨ s.1 + s.2 ≤ r.1) regions

instance (regions : List (Nat × Nat)) : Decidable (regionsDisjoint regions) := by
  unfold regionsDisjoint; infer_instance

/-- Overwrite `buf` starting at byte offset `off` with `src` (the effect of
one staging `cudaMemcpy` into the host scratch buffer). -/
def writeBytes (buf : List Nat) (off : Nat) (src : List Nat) : List Nat :=
  buf.take off ++ src ++ buf.drop (off + src.length)

/-- The arguments `ComputeInternal` hands to
`adasum_reducer_->DispatchFusedAllreduce` (lines 52–57). -/
structure DispatchArgs where
  tensorElementCounts : List Nat
  startLevel : Nat
  commGroup : WorkerGroupType
  tag : Nat
  dataType : DataType
  deriving DecidableEq

/-- Lines 13–16: the VHDD start level is the node-local data-parallel group
size under `GpuHierarchical`, and 1 for every other algorithm selector. -/
def vhddStartLevel (algo : AdasumReductionType) (nodeLocalGroupSize : Nat) : Nat :=
  if algo = AdasumReductionType.GpuHierarchical then nodeLocalGroupSize else 1

/-- What a finished call exposes: the arguments of the single dispatch (if
one was issued) and the call's result — `Option.none` as result models the
undefined behaviour of dereferencing `context->Input<Tensor>(0)` when the
request has no input tensors. -/
structure KernelTrace where
  dispatched : Option DispatchArgs
  result : Option (Except ReduceError (List (List Nat)))

/-- The staging loop (lines 43–47): copy tensor `i`'s bytes to its recorded
offset in the scratch buffer; each device-to-host copy may fail. -/
def stageLoop (copyD2H : Nat → Except ReduceError Unit) :
    List (KernelTensor × Nat) → Nat → List Nat → Except ReduceError (List Nat)
  | [], _, buf => Except.ok buf
  | (t, off) :: rest, i, buf =>
    match copyD2H i with
    | Except.error e => Except.error e
    | Except.ok _ => stageLoop copyD2H rest (i + 1) (writeBytes buf off t.bytes)

/-- The pure effect of the staging loop when every copy succeeds. -/
def stagePure : List (KernelTensor × Nat) → List Nat → List Nat
  | [], buf => buf
  | (t, off) :: rest, buf => stagePure rest (writeBytes buf off t.bytes)

/-- The scatter loop (lines 59–63): output `i` is the byte range of the
reduced buffer at tensor `i`'s recorded offset and size; each
host-to-device copy may fail. -/
def scatterLoop (copyH2D : Nat → Except ReduceError Unit) (buf : List Nat) :
    List (Nat × Nat) → Nat → Except ReduceError (List (List Nat))
  | [], _ => Except.ok []
  | (off, sz) :: rest, i =>
    match copyH2D i with
    | Except.error e => Except.error e
    | Except.ok _ =>
      match scatterLoop copyH2D buf rest (i + 1) with
      | Except.error e => Except.error e
      | Except.ok outs => Except.ok ((buf.drop off).take sz :: outs)

/-- The body of `AdasumAllReduce::ComputeInternal`, step for step: compute the start
level; record offsets, sizes and element counts; allocate the host scratch
buffer; stage every input into it; allocate the receive buffer; dispatch
the fused allreduce with start level, the global-parallel communicator,
tag 0 and input 0's element kind; scatter the reduced buffer back to the
outputs.  Any failing step's error is returned at once; later steps are
not executed and no further output is written. -/
def computeInternal (algo : AdasumReductionType) (nodeLocalGroupSize : Nat)
    (inputs : List KernelTensor)
    (alloc : Nat → Except ReduceError Unit)
    (copyD2H : Nat → Except ReduceError Unit)
    (reduce : List Nat → DispatchArgs → Except ReduceError (List Nat))
    (copyH2D : Nat → Except ReduceError Unit) : KernelTrace :=
  let startLevel := vhddStartLevel algo nodeLocalGroupSize
  let sizes := inputs.map fun t => t.sizeInBytes
  let offsets := tensorOffsets sizes
  let counts := inputs.map fun t => t.elemCount
  let total := sizes.sum
  match alloc total with
  | Except.error e => ⟨none, some (Except.error e)⟩
  | Except.ok _ =>
    match stageLoop copyD2H (inputs.zip offsets) 0 (List.replicate total 0) with
    | Except.error e => ⟨none, some (Except.error e)⟩
    | Except.ok staged =>
      match alloc total with
      | Except.error e => ⟨none, some (Except.error e)⟩
      | Except.ok _ =>
        match inputs.head? with
        | none => ⟨none, none⟩
        | some t0 =>
          let args : DispatchArgs :=
            ⟨counts, startLevel, WorkerGroupType.GlobalParallel, 0, t0.dataType⟩
          match reduce staged args with
          | Except.error e => ⟨some args, some (Except.error e)⟩
          | Except.ok reduced =>
            match scatterLoop copyH2D reduced (offsets.zip sizes) 0 with
            | Except.error e => ⟨some args, some (Except.error e)⟩
            | Except.ok outs => ⟨some args, some (Except.ok outs)⟩

/-- A step that always succeeds (healthy allocator / healthy copies). -/
def okStep : Nat → Except ReduceError Unit := fun _ => Except.ok ()

/-- The operator sequence `build_allreduce_graph` places in the graph
(allreduce_op_test.cc lines 158–236): under `GpuHierarchical` a node-local
flat collective precedes the Adasum node; otherwise a single node whose
operator is the flat collective exactly when the selector is `None`. -/
def buildAllreduceOps (adasumReduceType : AdasumReductionType) : List String :=
  let ncclOp : String := "NcclAllReduce"
  let adasumOp : String := "AdasumAllReduce"
  let opName := if adasumReduceType = AdasumReductionType.None then ncclOp else adasumOp
  if adasumReduceType = AdasumReductionType.GpuHierarchical then [ncclOp, opName]
  else [opName]

/-- The input indices the kernel body dereferences: every `i < num_tensors`
in the staging loop, index 0 at the dispatch (for the element kind), and
every `i < num_tensors` again in the scatter loop. -/
def accessedInputIndices (inputs : List KernelTensor) : List Nat :=
  List.range inputs.length ++ [0] ++ List.range inputs.length

/-! ## Request validation and type admission (modelled from the spec) -/

/-- A participant's declared request shape: the element count of each
tensor it supplies to the fused call. -/
structure Participant where
  counts : List Nat
  deriving DecidableEq

/-- Modelled from the spec: the Staged-state validation of a reduction
request (spec §4.3; the validating code sits behind
`DispatchFusedAllreduce`, which is not among the provided sources):
every participant must declare the same tensor count and matching
per-tensor element counts; a count mismatch yields `TensorCountMismatch`,
a per-tensor element-count mismatch yields `ElementCountMismatch`. -/
def validateRequest : List Participant → Option ReduceError
  | [] => none
  | p :: rest =>
    if ∀ q ∈ rest, q.counts.length = p.counts.length then
      if ∀ q ∈ rest, q.counts = p.counts then none
      else some ReduceError.ElementCountMismatch
    else some ReduceError.TensorCountMismatch

/-- The per-invocation states of the kernel's state machine (spec §4.3). -/
inductive CallState
  | Staged
  | Reduced
  | Scattered
  | Failed (e : ReduceError)
  deriving DecidableEq

/-- Observable outcome of one reduction call: its terminal state, how many
network operations were issued before reaching it, and whether any output
tensor was written. -/
structure CallResult where
  finalState : CallState
  networkOpsIssued : Nat
  outputWritten : Bool
  deriving DecidableEq

/-- Modelled from the spec: the AllreduceKernel state machine (§4.3) —
validation happens locally in the Staged state, so a mismatch transitions
directly to Failed with zero network operations issued and no output
written; only a validated request runs the exchange to Scattered. -/
def runReductionCall (ps : List Participant) (exchangeOps : Nat) : CallResult :=
  match validateRequest ps with
  | some e => ⟨CallState.Failed e, 0, false⟩
  | none => ⟨CallState.Scattered, exchangeOps, true⟩

/-- The supported element kinds (spec §3: 32-bit float and 16-bit float). -/
def supportedElementKinds : List DataType := [DataType.Float32, DataType.Float16]

/-- Modelled from the spec: the setup-time element-kind admission of a
reduction call (the kernel registration's type constraint table is not
among the provided sources): any element kind outside the supported set
fails the call with `UnsupportedTypeError`. -/
def checkElementKinds (ts : List DataType) : Except ReduceError Unit :=
  if ∀ t ∈ ts, t ∈ supportedElementKinds then Except.ok ()
  else Except.error ReduceError.UnsupportedTypeError

/-! ## Helper lemmas -/

theorem dotProduct_comm (a b : List ℚ) : dotProduct a b = dotProduct b a := by
  unfold dotProduct
  rw [List.zipWith_comm_of_comm (· * ·) mul_comm]

theorem vecAdd_comm (a b : List ℚ) : vecAdd a b = vecAdd b a := by
  unfold vecAdd
  rw [List.zipWith_comm_of_comm (· + ·) add_comm]

theorem vecAdd_getD (a b : List ℚ) (i : Nat) (ha : i < a.length) (hb : i < b.length) :
    (vecAdd a b).getD i 0 = a.getD i 0 + b.getD i 0 := by
  induction a generalizing b i with
  | nil => simp at ha
  | cons x xs ih =>
    cases b with
    | nil => simp at hb
    | cons y ys =>
      cases i with
      | zero => simp [vecAdd]
      | succ j =>
        simp only [List.length_cons, Nat.succ_lt_succ_iff] at ha hb
        simpa [vecAdd] using ih ys j ha hb

/-! ## C1: the Adasum pairwise combination -/

/-- C1: for same-length vectors with both squared norms non-zero the Adasum
pairwise combination is the projection-corrected weighted sum
`(1 − (a·b)/(2‖a‖²))·a + (1 − (a·b)/(2‖b‖²))·b`; when either norm is zero
it is the plain sum; and on the concrete world-size-2 scenario with inputs
`[4,5,6]` and `[7,8,9]` both orders of combination are within `10⁻⁴` of the
expected output `[5.6301, 6.5235, 7.4169]`. -/
theorem C1_pairwise_combination (a b : List ℚ) (_hlen : a.length = b.length)
    (hna : normSq a ≠ 0) (hnb : normSq b ≠ 0) :
    adasumCombine a b
        = vecAdd (a.map fun x => (1 - dotProduct a b / (2 * normSq a)) * x)
                 (b.map fun y => (1 - dotProduct a b / (2 * normSq b)) * y)
  ∧ (∀ u v : List ℚ, normSq u = 0 ∨ normSq v = 0 → adasumCombine u v = vecAdd u v)
  ∧ approxList (adasumCombine [4, 5, 6] [7, 8, 9])
      [56301/10000, 65235/10000, 74169/10000] (1/10000)
  ∧ approxList (adasumCombine [7, 8, 9] [4, 5, 6])
      [56301/10000, 65235/10000, 74169/10000] (1/10000) := by
  refine ⟨?_, ?_, ?_, ?_⟩
  · rw [adasumCombine, if_pos ⟨hna, hnb⟩]; rfl
  · intro u v h
    rw [adasumCombine, if_neg]
    rcases h with h | h
    · exact fun hc => hc.1 h
    · exact fun hc => hc.2 h
  · norm_num [adasumCombine, adasumWeighted, vecAdd, dotProduct, normSq, approxList,
      List.zipWith, List.zip, List.zipWithAll, abs_sub_le_iff]
  · norm_num [adasumCombine, adasumWeighted, vecAdd, dotProduct, normSq, approxList,
      List.zipWith, List.zip, List.zipWithAll, abs_sub_le_iff]

/-- Witness for C1 at the concrete input `a = b = [1]`. -/
theorem C1_pairwise_combination_witness :
    normSq [(1 : ℚ)] ≠ 0 ∧
      adasumCombine [(1 : ℚ)] [(1 : ℚ)]
        = vecAdd ([(1 : ℚ)].map fun x =>
              (1 - dotProduct [(1 : ℚ)] [(1 : ℚ)] / (2 * normSq [(1 : ℚ)])) * x)
            ([(1 : ℚ)].map fun y =>
              (1 - dotProduct [(1 : ℚ)] [(1 : ℚ)] / (2 * normSq [(1 : ℚ)])) * y) :=
  have h : normSq [(1 : ℚ)] ≠ 0 := by norm_num [normSq, dotProduct]
  ⟨h, (C1_pairwise_combination [(1 : ℚ)] [(1 : ℚ)] rfl h h).1⟩

/-! ## C3: flat plain-summation allreduce at world size 2 -/

/-- C3: with world size 2 and plain summation every output element is the
sum of the two ranks' elements, and the concrete inputs `[4,5,6]` and
`[7,8,9]` produce `[11,13,15]`. -/
theorem C3_flat_sum (a b : List ℚ) (i : Nat) (ha : i < a.length) (hb : i < b.length) :
    (flatSumAllreduce a b).getD i 0 = a.getD i 0 + b.getD i 0
  ∧ flatSumAllreduce [4, 5, 6] [7, 8, 9] = [11, 13, 15] := by
  constructor
  · exact vecAdd_getD a b i ha hb
  · norm_num [flatSumAllreduce, vecAdd, List.zipWith]

/-- Witness for C3 at `a = [4,5,6]`, `b = [7,8,9]`, `i = 0`. -/
theorem C3_flat_sum_witness :
    0 < ([4, 5, 6] : List ℚ).length ∧
      (flatSumAllreduce [4, 5, 6] [7, 8, 9]).getD 0 0
        = ([4, 5, 6] : List ℚ).getD 0 0 + ([7, 8, 9] : List ℚ).getD 0 0 :=
  ⟨by norm_num,
   (C3_flat_sum [4, 5, 6] [7, 8, 9] 0 (by norm_num) (by norm_num)).1⟩

/-! ## C4: the VHDD start level -/

/-- C4: the start level handed to the reducer is 1 whenever the configured
algorithm selector is not GpuHierarchical, and the node-local worker-group
size when it is; in the hierarchical graph a node-local flat collective
precedes the Adasum node. -/
theorem C4_start_level (algo : AdasumReductionType) (n : Nat)
    (h : algo ≠ AdasumReductionType.GpuHierarchical) :
    vhddStartLevel algo n = 1
  ∧ vhddStartLevel AdasumReductionType.GpuHierarchical n = n
  ∧ buildAllreduceOps AdasumReductionType.GpuHierarchical
      = ["NcclAllReduce", "AdasumAllReduce"] := by
  refine ⟨?_, ?_, ?_⟩
  · simp [vhddStartLevel, h]
  · simp [vhddStartLevel]
  · rfl

/-- Witness for C4 at `algo = CpuReduction`, node-local group size 4. -/
theorem C4_start_level_witness :
    vhddStartLevel AdasumReductionType.CpuReduction 4 = 1
  ∧ vhddStartLevel AdasumReductionType.GpuHierarchical 4 = 4
  ∧ buildAllreduceOps AdasumReductionType.GpuHierarchical
      = ["NcclAllReduce", "AdasumAllReduce"] :=
  C4_start_level AdasumReductionType.CpuReduction 4 (by decide)

/-! ## C7: symmetry and per-tensor independence of the combination -/

/-- C7: the Adasum pairwise combination is symmetric (exactly, in the
rational model), the fused combination applies the pairwise combination
independently to each tensor of the request, and on the concrete two-tensor
scenario (rank 0: `([4,5,6],[7,8,9])`, rank 1: `([7,8,9],[4,5,6])`) both
output tensors are within `10⁻⁴` of `[5.6301, 6.5235, 7.4169]`. -/
theorem C7_symmetry (a b : List ℚ) :
    adasumCombine a b = adasumCombine b a
  ∧ (∀ as bs : List (List ℚ), fusedAdasumCombine as bs = List.zipWith adasumCombine as bs)
  ∧ (fusedAdasumCombine [[4, 5, 6], [7, 8, 9]] [[7, 8, 9], [4, 5, 6]]).length = 2
  ∧ ∀ r ∈ fusedAdasumCombine [[4, 5, 6], [7, 8, 9]] [[7, 8, 9], [4, 5, 6]],
      approxList r [56301/10000, 65235/10000, 74169/10000] (1/10000) := by
  refine ⟨?_, fun _ _ => rfl, rfl, ?_⟩
  · unfold adasumCombine adasumWeighted
    by_cases hc : normSq a ≠ 0 ∧ normSq b ≠ 0
    · rw [if_pos hc, if_pos ⟨hc.2, hc.1⟩, dotProduct_comm b a, vecAdd_comm]
    · rw [if_neg hc, if_neg (fun hc2 => hc ⟨hc2.2, hc2.1⟩), vecAdd_comm]
  · intro r hr
    simp only [fusedAdasumCombine, List.zipWith, List.mem_cons, List.not_mem_nil,
      or_false] at hr
    rcases hr with h | h <;> subst h <;>
      norm_num [adasumCombine, adasumWeighted, vecAdd, dotProduct, normSq, approxList,
        List.zipWith, List.zip, List.zipWithAll, abs_sub_le_iff]

/-- Witness for C7 at `a = [4,5,6]`, `b = [7,8,9]`, with the first fused
tensor as the concrete member. -/
theorem C7_symmetry_witness :
    adasumCombine [(4 : ℚ), 5, 6] [7, 8, 9] = adasumCombine [7, 8, 9] [(4 : ℚ), 5, 6]
  ∧ approxList (adasumCombine [(4 : ℚ), 5, 6] [7, 8, 9])
      [56301/10000, 65235/10000, 74169/10000] (1/10000) :=
  ⟨(C7_symmetry [(4 : ℚ), 5, 6] [7, 8, 9]).1,
   (C7_symmetry [(4 : ℚ), 5, 6] [7, 8, 9]).2.2.2
     (adasumCombine [(4 : ℚ), 5, 6] [7, 8, 9])
     (by simp [fusedAdasumCombine, List.zipWith])⟩

/-! ## C2: the recorded offset table of the staging buffer -/

/-- C2 fails on the code: the offsets loop records, as tensor `i`'s offset,
the byte size of tensor `i-1` instead of the cumulative sum of the sizes of
tensors `0..i-1`.  At three tensors of byte sizes 4, 8, 12 the recorded
table is `[0, 4, 8]` where the cumulative table is `[0, 4, 12]`; the
recorded regions are not pairwise disjoint, and an identity round trip
through the staging buffer corrupts the middle tensor — while the buffer's
total size is, as claimed, the sum of the byte sizes. -/
theorem C2_offset_table_bug :
    tensorOffsets [4, 8, 12] = [0, 4, 8]
  ∧ cumOffsets [4, 8, 12] = [0, 4, 12]
  ∧ tensorOffsets [4, 8, 12] ≠ cumOffsets [4, 8, 12]
  ∧ ¬ regionsDisjoint (List.zip (tensorOffsets [4, 8, 12]) [4, 8, 12])
  ∧ ([4, 8, 12] : List Nat).sum = 24
  ∧ (computeInternal AdasumReductionType.CpuReduction 1
        [⟨4, 1, DataType.Float32, [1, 1, 1, 1]⟩,
         ⟨8, 2, DataType.Float32, [2, 2, 2, 2, 2, 2, 2, 2]⟩,
         ⟨12, 3, DataType.Float32, [3, 3, 3, 3, 3, 3, 3, 3, 3, 3, 3, 3]⟩]
        okStep okStep (fun buf _ => Except.ok buf) okStep).result
      = some (Except.ok
          [[1, 1, 1, 1], [2, 2, 2, 2, 3, 3, 3, 3],
           [3, 3, 3, 3, 3, 3, 3, 3, 3, 3, 3, 3]])
  ∧ ([2, 2, 2, 2, 3, 3, 3, 3] : List Nat) ≠ [2, 2, 2, 2, 2, 2, 2, 2] :=
  ⟨by decide, by decide, by decide, by decide, by decide, rfl, by decide⟩

/-! ## C5: mismatching request shapes fail fast -/

theorem validateRequest_none_uniform (ps : List Participant)
    (h : validateRequest ps = none) :
    ∀ p ∈ ps, ∀ q ∈ ps, p.counts = q.counts := by
  cases ps with
  | nil => intro p hp; simp at hp
  | cons hd rest =>
    intro p hp q hq
    simp only [validateRequest] at h
    split at h
    case isTrue h1 =>
      split at h
      case isTrue h2 =>
        have hp' : p.counts = hd.counts := by
          rcases List.mem_cons.mp hp with h3 | h3
          · rw [h3]
          · exact h2 p h3
        have hq' : q.counts = hd.counts := by
          rcases List.mem_cons.mp hq with h3 | h3
          · rw [h3]
          · exact h2 q h3
        rw [hp', hq']
      case isFalse h2 => simp at h
    case isFalse h1 => simp at h

theorem validateRequest_some_kind (ps : List Participant) (e : ReduceError)
    (h : validateRequest ps = some e) :
    e = ReduceError.TensorCountMismatch ∨ e = ReduceError.ElementCountMismatch := by
  cases ps with
  | nil => simp [validateRequest] at h
  | cons hd rest =>
    simp only [validateRequest] at h
    split at h
    · split at h
      · simp at h
      · simp only [Option.some.injEq] at h
        exact Or.inr h.symm
    · simp only [Option.some.injEq] at h
      exact Or.inl h.symm

/-- C5: whenever two participants of a reduction call disagree on their
declared tensor counts or per-tensor element counts, the call terminates in
the Failed state with `TensorCountMismatch` or `ElementCountMismatch`,
with zero network operations issued and no output written — for any number
of exchange operations the healthy path would have used. -/
theorem C5_mismatch_fails_fast (ps : List Participant) (p q : Participant)
    (hp : p ∈ ps) (hq : q ∈ ps) (hne : p.counts ≠ q.counts) :
    ∃ e, (e = ReduceError.TensorCountMismatch ∨ e = ReduceError.ElementCountMismatch)
      ∧ ∀ exchangeOps, runReductionCall ps exchangeOps
          = ⟨CallState.Failed e, 0, false⟩ := by
  cases hv : validateRequest ps with
  | none => exact absurd (validateRequest_none_uniform ps hv p hp q hq) hne
  | some e =>
    exact ⟨e, validateRequest_some_kind ps e hv,
      fun _ => by simp [runReductionCall, hv]⟩

/-- Witness for C5: one participant declares one tensor of 3 elements, the
other two tensors — mirroring the tensor-count-mismatch test. -/
theorem C5_mismatch_fails_fast_witness :
    Participant.mk [3] ∈ [Participant.mk [3], Participant.mk [3, 3]]
  ∧ ∃ e, (e = ReduceError.TensorCountMismatch ∨ e = ReduceError.ElementCountMismatch)
      ∧ ∀ exchangeOps,
          runReductionCall [Participant.mk [3], Participant.mk [3, 3]] exchangeOps
            = ⟨CallState.Failed e, 0, false⟩ :=
  ⟨List.mem_cons_self _ _,
   C5_mismatch_fails_fast [Participant.mk [3], Participant.mk [3, 3]]
     (Participant.mk [3]) (Participant.mk [3, 3])
     (by decide) (by decide) (by decide)⟩

/-! ## C8: element-kind admission -/

/-- C8: a request holding any element kind outside the supported set fails
with `UnsupportedTypeError` at setup, and a request passes the setup check
exactly when every element kind is 32-bit or 16-bit float. -/
theorem C8_type_check (ts : List DataType) :
    ((∃ t ∈ ts, t ∉ supportedElementKinds) →
        checkElementKinds ts = Except.error ReduceError.UnsupportedTypeError)
  ∧ (checkElementKinds ts = Except.ok ()
      ↔ ∀ t ∈ ts, t = DataType.Float32 ∨ t = DataType.Float16) := by
  constructor
  · rintro ⟨t, ht, hns⟩
    rw [checkElementKinds, if_neg]
    intro hall; exact hns (hall t ht)
  · rw [checkElementKinds]
    split
    case isTrue hall =>
      constructor
      · intro _ t ht
        simpa [supportedElementKinds] using hall t ht
      · intro _; rfl
    case isFalse hnall =>
      constructor
      · intro h; exact Except.noConfusion h
      · intro hall
        refine absurd (fun t ht => ?_) hnall
        rcases hall t ht with h | h <;> simp [supportedElementKinds, h]

/-- Witness for C8 at a 64-bit float input. -/
theorem C8_type_check_witness :
    (∃ t ∈ [DataType.Float64], t ∉ supportedElementKinds)
  ∧ checkElementKinds [DataType.Float64]
      = Except.error ReduceError.UnsupportedTypeError :=
  have hex : ∃ t ∈ [DataType.Float64], t ∉ supportedElementKinds :=
    ⟨DataType.Float64, by decide, by decide⟩
  ⟨hex, (C8_type_check [DataType.Float64]).1 hex⟩

/-! ## Helper lemmas about the kernel loops -/

theorem offsetsLoop_length (l : List Nat) (s : Nat) :
    (offsetsLoop l s).length = l.length := by
  induction l generalizing s with
  | nil => rfl
  | cons x xs ih => simp [offsetsLoop, ih]

theorem tensorOffsets_length (sizes : List Nat) :
    (tensorOffsets sizes).length = sizes.length :=
  offsetsLoop_length sizes 0

theorem stageLoop_okStep (l : List (KernelTensor × Nat)) (i : Nat) (buf : List Nat) :
    stageLoop okStep l i buf = Except.ok (stagePure l buf) := by
  induction l generalizing i buf with
  | nil => rfl
  | cons p rest ih =>
    obtain ⟨t, off⟩ := p
    simp only [stageLoop, okStep, stagePure]
    exact ih (i + 1) (writeBytes buf off t.bytes)

theorem scatterLoop_okStep (buf : List Nat) (l : List (Nat × Nat)) (i : Nat) :
    scatterLoop okStep buf l i
      = Except.ok (l.map fun p => (buf.drop p.1).take p.2) := by
  induction l generalizing i with
  | nil => rfl
  | cons p rest ih =>
    obtain ⟨off, sz⟩ := p
    simp [scatterLoop, okStep, ih (i + 1)]

theorem dispatched_tag_group (algo : AdasumReductionType) (n : Nat)
    (inputs : List KernelTensor)
    (alloc copyD2H copyH2D : Nat → Except ReduceError Unit)
    (reduce : List Nat → DispatchArgs → Except ReduceError (List Nat))
    (args : DispatchArgs)
    (h : (computeInternal algo n inputs alloc copyD2H reduce copyH2D).dispatched
        = some args) :
    args.tag = 0 ∧ args.commGroup = WorkerGroupType.GlobalParallel := by
  simp only [computeInternal] at h
  repeat' split at h
  all_goals simp_all
  all_goals (subst h; exact ⟨rfl, rfl⟩)

/-! ## C6: error propagation and atomicity of the kernel -/

/-- C6: if the allocator, a staging copy, or the reducer fails, the kernel
returns that same error (issuing the reducer at most once, and the failing
allocator or copy case never reaching a dispatch at all), and its result
carries no output tensors; when every step succeeds the result scatters one
output per input tensor. -/
theorem C6_error_propagation (algo : AdasumReductionType) (n : Nat)
    (inputs : List KernelTensor) (e : ReduceError)
    (reduce : List Nat → DispatchArgs → Except ReduceError (List Nat))
    (hne : inputs ≠ []) :
    ((∀ buf args, reduce buf args = Except.error e) →
        (computeInternal algo n inputs okStep okStep reduce okStep).result
          = some (Except.error e))
  ∧ computeInternal algo n inputs
        (fun _ => Except.error ReduceError.AllocationError) okStep reduce okStep
      = ⟨none, some (Except.error ReduceError.AllocationError)⟩
  ∧ computeInternal algo n inputs okStep
        (fun _ => Except.error ReduceError.DeviceCopyError) reduce okStep
      = ⟨none, some (Except.error ReduceError.DeviceCopyError)⟩
  ∧ (∀ f : List Nat → List Nat,
      ∃ outs, (computeInternal algo n inputs okStep okStep
          (fun buf _ => Except.ok (f buf)) okStep).result
        = some (Except.ok outs) ∧ outs.length = inputs.length) := by
  cases inputs with
  | nil => exact absurd rfl hne
  | cons hd tl =>
    refine ⟨?_, rfl, rfl, ?_⟩
    · intro hred
      simp [computeInternal, okStep, stageLoop_okStep, hred]
    · intro f
      simp only [computeInternal, okStep, stageLoop_okStep, scatterLoop_okStep]
      exact ⟨_, rfl, by
        simp [List.length_map, List.length_zip, tensorOffsets_length, min_self]⟩

/-- Witness for C6 at one concrete tensor and a reducer failing with
`CommunicationFailure`. -/
theorem C6_error_propagation_witness :
    (computeInternal AdasumReductionType.CpuReduction 1
        [⟨4, 1, DataType.Float32, [1, 1, 1, 1]⟩] okStep okStep
        (fun _ _ => Except.error ReduceError.CommunicationFailure) okStep).result
      = some (Except.error ReduceError.CommunicationFailure) :=
  (C6_error_propagation AdasumReductionType.CpuReduction 1
      [⟨4, 1, DataType.Float32, [1, 1, 1, 1]⟩] ReduceError.CommunicationFailure
      (fun _ _ => Except.error ReduceError.CommunicationFailure)
      (by simp)).1 (fun _ _ => rfl)

/-! ## C9: the dispatch tag and communicator group -/

/-- C9: every dispatch the kernel issues carries tag 0 and the
global-parallel worker group, whatever the algorithm selector, group size,
inputs or step outcomes — so any two dispatches carry the same tag. -/
theorem C9_dispatch_tag_group
    (algo1 algo2 : AdasumReductionType) (n1 n2 : Nat)
    (inputs1 inputs2 : List KernelTensor)
    (alloc1 copyD2H1 copyH2D1 alloc2 copyD2H2 copyH2D2 : Nat → Except ReduceError Unit)
    (reduce1 reduce2 : List Nat → DispatchArgs → Except ReduceError (List Nat))
    (args1 args2 : DispatchArgs)
    (h1 : (computeInternal algo1 n1 inputs1 alloc1 copyD2H1 reduce1 copyH2D1).dispatched
        = some args1)
    (h2 : (computeInternal algo2 n2 inputs2 alloc2 copyD2H2 reduce2 copyH2D2).dispatched
        = some args2) :
    args1.tag = 0 ∧ args1.commGroup = WorkerGroupType.GlobalParallel
  ∧ args1.tag = args2.tag := by
  obtain ⟨ht1, hg1⟩ :=
    dispatched_tag_group algo1 n1 inputs1 alloc1 copyD2H1 copyH2D1 reduce1 args1 h1
  obtain ⟨ht2, _⟩ :=
    dispatched_tag_group algo2 n2 inputs2 alloc2 copyD2H2 copyH2D2 reduce2 args2 h2
  exact ⟨ht1, hg1, ht1.trans ht2.symm⟩

/-- Witness for C9: two concrete invocations with different algorithm
selectors both dispatch with tag 0 on the global-parallel group. -/
theorem C9_dispatch_tag_group_witness :
    (⟨[1], 1, WorkerGroupType.GlobalParallel, 0, DataType.Float32⟩ : DispatchArgs).tag = 0
  ∧ (⟨[1], 1, WorkerGroupType.GlobalParallel, 0, DataType.Float32⟩ : DispatchArgs).commGroup
      = WorkerGroupType.GlobalParallel
  ∧ (⟨[1], 1, WorkerGroupType.GlobalParallel, 0, DataType.Float32⟩ : DispatchArgs).tag
      = (⟨[1], 1, WorkerGroupType.GlobalParallel, 0, DataType.Float32⟩ : DispatchArgs).tag :=
  C9_dispatch_tag_group AdasumReductionType.CpuReduction AdasumReductionType.GpuHierarchical
    1 1 [⟨4, 1, DataType.Float32, [1, 1, 1, 1]⟩] [⟨4, 1, DataType.Float32, [1, 1, 1, 1]⟩]
    okStep okStep okStep okStep okStep okStep
    (fun buf _ => Except.ok buf) (fun buf _ => Except.ok buf)
    ⟨[1], 1, WorkerGroupType.GlobalParallel, 0, DataType.Float32⟩
    ⟨[1], 1, WorkerGroupType.GlobalParallel, 0, DataType.Float32⟩
    rfl rfl

/-! ## C10: the input-tensor access pattern -/

/-- C10: with at least one input tensor the call is well-defined (its
result is never the undefined-behaviour marker) and every input index the
kernel body dereferences is in bounds; with zero input tensors no dispatch
is ever issued (the body dereferences input 0 with no guard first). -/
theorem C10_input_access_bounds (algo : AdasumReductionType) (n : Nat)
    (inputs : List KernelTensor)
    (alloc copyD2H copyH2D : Nat → Except ReduceError Unit)
    (reduce : List Nat → DispatchArgs → Except ReduceError (List Nat))
    (hne : inputs ≠ []) :
    (computeInternal algo n inputs alloc copyD2H reduce copyH2D).result ≠ none
  ∧ (∀ i ∈ accessedInputIndices inputs, i < inputs.length)
  ∧ (computeInternal algo n [] okStep okStep reduce okStep).result = none := by
  refine ⟨?_, ?_, rfl⟩
  · simp only [computeInternal]
    repeat' split
    all_goals simp_all [List.head?_eq_none_iff]
  · intro i hi
    simp only [accessedInputIndices, List.mem_append, List.mem_range,
      List.mem_singleton] at hi
    rcases hi with (h | h) | h
    · exact h
    · subst h; exact List.length_pos.mpr hne
    · exact h

/-- Witness for C10 at one concrete tensor. -/
theorem C10_input_access_bounds_witness :
    (computeInternal AdasumReductionType.CpuReduction 1
        [⟨4, 1, DataType.Float32, [1, 1, 1, 1]⟩] okStep okStep
        (fun buf _ => Except.ok buf) okStep).result ≠ none
  ∧ (∀ i ∈ accessedInputIndices [⟨4, 1, DataType.Float32, [1, 1, 1, 1]⟩],
      i < ([⟨4, 1, DataType.Float32, [1, 1, 1, 1]⟩] : List KernelTensor).length)
  ∧ (computeInternal AdasumReductionType.CpuReduction 1 [] okStep okStep
        (fun buf _ => Except.ok buf) okStep).result = none :=
  C10_input_access_bounds AdasumReductionType.CpuReduction 1
    [⟨4, 1, DataType.Float32, [1, 1, 1, 1]⟩] okStep okStep okStep
    (fun buf _ => Except.ok buf) (by simp)

end OnnxAdasum
